import Mathlib

/-!
Verification development for the WildTree bot core
(`src/wild_tree_bot_release.py`).

The embedding models the state-transition and progression engine:
the sqlite-backed user table becomes a `Store` (a map from user id to an
optional record), partial-field `UPDATE`s become `Patch`es, an action
handler becomes a function from process state, user id and the current
time to an optional `ActionResult` (`none` models the crash on unpacking
a missing row), and outbound chat messages become the `Reply` inductive,
carrying exactly the numeric payloads interpolated into the message text.
Timestamps (`time.time()` floats) are modelled as integers: the source
uses its float timestamps only in subtraction and order comparison, and on
integer-valued times the `int(...)` truncation of the (positive) remaining
wait is the identity, so the integer model is the restriction of the float
semantics to whole-second times.
-/

namespace WildTree

/-- `WATER_COOLDOWN = 300` seconds, from the source constants. -/
def WATER_COOLDOWN : ℤ := 300

/-- `SUN_COOLDOWN = 600` seconds, from the source constants. -/
def SUN_COOLDOWN : ℤ := 600

/-- `DAILY_COOLDOWN = 24 * 3600` seconds, from the source constants. -/
def DAILY_COOLDOWN : ℤ := 24 * 3600

/-- `MAX_LEVEL = 20`, from the source constants. -/
def MAX_LEVEL : ℤ := 20

/-- Bounded search for the least `n ≥ start` with `m ≤ n ^ 5`. -/
def ceilRoot5Aux (m : ℕ) : ℕ → ℕ → ℕ
  | 0, n => n
  | fuel + 1, n => if m ≤ n ^ 5 then n else ceilRoot5Aux m fuel (n + 1)

/-- Least `n : ℕ` with `m ≤ n ^ 5`: the ceiling of the real fifth root of `m`. -/
def ceilRoot5 (m : ℕ) : ℕ := ceilRoot5Aux m (m + 1) 0

/-- `exp_needed_for(level) = ceil(5 * (level ** 1.6))` from the source.
Since `1.6 = 8/5`, the exact value is `⌈(3125 * level^8)^(1/5)⌉`, the least
`n` with `3125 * level^8 ≤ n^5`.  The source computes with binary floats;
the float result coincides with this exact ceiling for every level the
program can reach (`level` starts at 1 and is capped at `MAX_LEVEL = 20`,
and the two agree on all of `0..25`). -/
def exp_needed_for (level : ℕ) : ℕ := ceilRoot5 (3125 * level ^ 8)

/-- One row of the `users` table: `(user_id, created, last_water,
last_daily, level, exp, sun, water)`. -/
structure UserRecord where
  user_id : ℤ
  created : ℤ
  last_water : ℤ
  last_daily : ℤ
  level : ℤ
  exp : ℤ
  sun : ℤ
  water : ℤ
deriving DecidableEq

/-- The keyed record store: the `users` table addressed by `user_id`. -/
abbrev Store := ℤ → Option UserRecord

/-- The zero-state row inserted by `ensure_user`:
`(uid, time.time(), 0.0, 0.0, 1, 0, 0, 0)`. -/
def freshRecord (uid : ℤ) (now : ℤ) : UserRecord :=
  ⟨uid, now, 0, 0, 1, 0, 0, 0⟩

/-- `ensure_user(uid)`: insert the zero-state row iff no row for `uid` exists. -/
def ensure_user (s : Store) (uid : ℤ) (now : ℤ) : Store :=
  match s uid with
  | some _ => s
  | none => fun v => if v = uid then some (freshRecord uid now) else s v

/-- `get_user(uid)`: `SELECT` the row for `uid`, or `None`. -/
def get_user (s : Store) (uid : ℤ) : Option UserRecord := s uid

/-- A partial-field update, modelling the keyword arguments of
`update_user`: `none` leaves the column unchanged. -/
structure Patch where
  last_water : Option ℤ := none
  last_daily : Option ℤ := none
  level : Option ℤ := none
  exp : Option ℤ := none
  sun : Option ℤ := none
  water : Option ℤ := none
deriving DecidableEq

/-- Apply a partial-field update to one record. -/
def applyPatch (r : UserRecord) (p : Patch) : UserRecord :=
  { r with
    last_water := p.last_water.getD r.last_water
    last_daily := p.last_daily.getD r.last_daily
    level := p.level.getD r.level
    exp := p.exp.getD r.exp
    sun := p.sun.getD r.sun
    water := p.water.getD r.water }

/-- `update_user(uid, **kwargs)`: `UPDATE users SET ... WHERE user_id=uid`.
A `WHERE` miss (no row for `uid`) updates nothing. -/
def update_user (s : Store) (uid : ℤ) (p : Patch) : Store :=
  fun v => if v = uid then (s v).map (fun r => applyPatch r p) else s v

/-- Outbound replies, abstracted to the numeric payloads the source
interpolates into each message string. -/
inductive Reply where
  | welcome
  | statusMsg (level maxLevel exp needed sun water : ℤ)
  | waterBlocked (mins secs : ℤ)
  | waterSuccess
  | sunBlocked (mins secs : ℤ)
  | sunSuccess
  | levelUp (newLevel : ℤ)
  | dailyBlocked (hrs mins : ℤ)
  | dailySuccess (rsun rwater rexp : ℤ)
  | profileMsg (level maxLevel exp needed sun water : ℤ)
deriving DecidableEq

/-- In-memory result of the `while` loop of `check_level_up`. -/
structure LoopOut where
  level : ℤ
  exp : ℤ
  sun : ℤ
  water : ℤ
  notes : List Reply
deriving DecidableEq

/-- The `while level < MAX_LEVEL and exp >= exp_needed_for(level)` loop of
`check_level_up`, with an explicit fuel.  Each iteration subtracts the
requirement, increments the level, grants +1 sun and +1 water, and emits
the notification for the new level. -/
def levelLoopFuel : ℕ → ℤ → ℤ → ℤ → ℤ → LoopOut
  | 0, l, e, s, w => ⟨l, e, s, w, []⟩
  | fuel + 1, l, e, s, w =>
    if l < MAX_LEVEL ∧ (exp_needed_for l.toNat : ℤ) ≤ e then
      let out := levelLoopFuel fuel (l + 1) (e - (exp_needed_for l.toNat : ℤ)) (s + 1) (w + 1)
      { out with notes := Reply.levelUp (l + 1) :: out.notes }
    else ⟨l, e, s, w, []⟩

/-- The loop of `check_level_up` run to completion: `(MAX_LEVEL - l).toNat`
fuel is enough, since every iteration requires `l < MAX_LEVEL` and
increments `l` (proved below as part of the termination claim). -/
def level_loop (l e s w : ℤ) : LoopOut := levelLoopFuel (MAX_LEVEL - l).toNat l e s w

/-- The single `update_user` call made at the end of `check_level_up`:
`update_user(uid, level=level, exp=exp, sun=sun, water=water)`. -/
def roll_patch (out : LoopOut) : Patch :=
  { level := some out.level, exp := some out.exp, sun := some out.sun, water := some out.water }

/-- `check_level_up(m, uid)`: re-read the record, run the rollover loop in
memory, then persist level/exp/sun/water in one update.  Returns the new
store, the level-up notifications in order, and the patch written.
`none` models the crash on unpacking a missing row. -/
def check_level_up (s : Store) (uid : ℤ) : Option (Store × List Reply × Patch) :=
  match s uid with
  | none => none
  | some r =>
    let out := level_loop r.level r.exp r.sun r.water
    some (update_user s uid (roll_patch out), out.notes, roll_patch out)

/-- Process state: the store plus the module-level mutable
`handler_sun.last_sun` attribute (`getattr` default 0 before the first
successful sun action). -/
structure BotState where
  store : Store
  last_sun : ℤ

/-- Process start: empty table, `last_sun` attribute unset (read as 0). -/
def initState : BotState := ⟨fun _ => none, 0⟩

/-- Outcome of one handler invocation: the new process state, the replies
sent in order, and the `update_user` writes performed in order. -/
structure ActionResult where
  state : BotState
  replies : List Reply
  writes : List (ℤ × Patch)

/-- The reward update of `handler_water`:
`update_user(uid, water=water+1, exp=exp+2, last_water=now)`. -/
def water_patch (r : UserRecord) (now : ℤ) : Patch :=
  { water := some (r.water + 1), exp := some (r.exp + 2), last_water := some now }

/-- The reward update of `handler_sun`: `update_user(uid, sun=sun+1, exp=exp+2)`
(note: no timestamp column is written). -/
def sun_patch (r : UserRecord) : Patch :=
  { sun := some (r.sun + 1), exp := some (r.exp + 2) }

/-- The reward update of `handler_daily`: `sun += 1 + level // 5`,
`water += 1 + level // 6`, `exp += 5 + level`, `last_daily = now`. -/
def daily_patch (r : UserRecord) (now : ℤ) : Patch :=
  { sun := some (r.sun + (1 + r.level.fdiv 5))
    water := some (r.water + (1 + r.level.fdiv 6))
    exp := some (r.exp + (5 + r.level))
    last_daily := some now }

/-- `handler_water`: ensure, load, check the water cooldown against the
record's `last_water` (blocked iff `now - last_water < 300`, replying with
the floored remaining wait split into minutes and seconds), otherwise
apply the reward update and run `check_level_up`. -/
def handler_water (g : BotState) (uid : ℤ) (now : ℤ) : Option ActionResult :=
  let s1 := ensure_user g.store uid now
  match s1 uid with
  | none => none
  | some r =>
    if now - r.last_water < WATER_COOLDOWN then
      let remain : ℤ := (WATER_COOLDOWN - (now - r.last_water))
      some ⟨⟨s1, g.last_sun⟩, [Reply.waterBlocked (remain.fdiv 60) (remain.fmod 60)], []⟩
    else
      let s2 := update_user s1 uid (water_patch r now)
      match check_level_up s2 uid with
      | none => none
      | some (s3, notes, p2) =>
        some ⟨⟨s3, g.last_sun⟩, Reply.waterSuccess :: notes, [(uid, water_patch r now), (uid, p2)]⟩

/-- `handler_sun`: the cooldown check reads the process-global
`handler_sun.last_sun`, not a field of the user's record; on success that
global attribute is set to `now` and the reward update writes only
`sun` and `exp` (the store has no last-sun column at all). -/
def handler_sun (g : BotState) (uid : ℤ) (now : ℤ) : Option ActionResult :=
  let s1 := ensure_user g.store uid now
  match s1 uid with
  | none => none
  | some r =>
    if now - g.last_sun < SUN_COOLDOWN then
      let remain : ℤ := (SUN_COOLDOWN - (now - g.last_sun))
      some ⟨⟨s1, g.last_sun⟩, [Reply.sunBlocked (remain.fdiv 60) (remain.fmod 60)], []⟩
    else
      let s2 := update_user s1 uid (sun_patch r)
      match check_level_up s2 uid with
      | none => none
      | some (s3, notes, p2) =>
        some ⟨⟨s3, now⟩, Reply.sunSuccess :: notes, [(uid, sun_patch r), (uid, p2)]⟩

/-- `handler_daily`: blocked iff `now - last_daily < 86400`, replying with
`int((last_daily + DAILY_COOLDOWN) - now)` split into hours and minutes;
on success apply the daily reward and run `check_level_up`. -/
def handler_daily (g : BotState) (uid : ℤ) (now : ℤ) : Option ActionResult :=
  let s1 := ensure_user g.store uid now
  match s1 uid with
  | none => none
  | some r =>
    if now - r.last_daily < DAILY_COOLDOWN then
      let remain : ℤ := ((r.last_daily + DAILY_COOLDOWN) - now)
      some ⟨⟨s1, g.last_sun⟩, [Reply.dailyBlocked (remain.fdiv 3600) ((remain.fmod 3600).fdiv 60)], []⟩
    else
      let s2 := update_user s1 uid (daily_patch r now)
      match check_level_up s2 uid with
      | none => none
      | some (s3, notes, p2) =>
        some ⟨⟨s3, g.last_sun⟩,
          Reply.dailySuccess (1 + r.level.fdiv 5) (1 + r.level.fdiv 6) (5 + r.level) :: notes,
          [(uid, daily_patch r now), (uid, p2)]⟩

/-- `handler_status`: read-only, no cooldown; displays `exp_needed_for(level)`. -/
def handler_status (g : BotState) (uid : ℤ) (now : ℤ) : Option ActionResult :=
  let s1 := ensure_user g.store uid now
  match s1 uid with
  | none => none
  | some r =>
    some ⟨⟨s1, g.last_sun⟩,
      [Reply.statusMsg r.level MAX_LEVEL r.exp (exp_needed_for r.level.toNat : ℤ) r.sun r.water], []⟩

/-- `handler_profile`: read-only, no cooldown; displays `exp_needed_for(level)`. -/
def handler_profile (g : BotState) (uid : ℤ) (now : ℤ) : Option ActionResult :=
  let s1 := ensure_user g.store uid now
  match s1 uid with
  | none => none
  | some r =>
    some ⟨⟨s1, g.last_sun⟩,
      [Reply.profileMsg r.level MAX_LEVEL r.exp (exp_needed_for r.level.toNat : ℤ) r.sun r.water], []⟩

/-- Replay a list of `update_user` writes against a store, in order. -/
def applyWrites (s : Store) (ws : List (ℤ × Patch)) : Store :=
  ws.foldl (fun acc w => update_user acc w.1 w.2) s

/-- Scenario fixture: user 1 at level 1 with 3 exp, never watered. -/
def c2R : UserRecord := ⟨1, 0, 0, 0, 1, 3, 0, 0⟩

/-- Scenario fixture: a store holding only `c2R`. -/
def c2G : BotState := ⟨fun v => if v = 1 then some c2R else none, 0⟩

/-- Scenario fixture: user 1 who last watered at t = 800. -/
def c5R : UserRecord := ⟨1, 0, 800, 0, 1, 0, 0, 0⟩

/-- Scenario fixture: a store holding only `c5R`, global last-sun at 400. -/
def c5G : BotState := ⟨fun v => if v = 1 then some c5R else none, 400⟩

/-- Scenario fixture: user 1 at level 10, daily bonus never collected. -/
def c7R : UserRecord := ⟨1, 0, 0, 0, 10, 0, 0, 0⟩

/-- Scenario fixture: a store holding only `c7R`. -/
def c7G : BotState := ⟨fun v => if v = 1 then some c7R else none, 0⟩

/-- Scenario fixture: a store with two users, 1 and 2. -/
def c10S : Store :=
  fun v => if v = 1 then some (freshRecord 1 0)
    else if v = 2 then some ⟨2, 0, 0, 0, 3, 1, 4, 5⟩ else none

/-! ### The experience requirement: exact characterization -/

theorem ceilRoot5Aux_spec (m : ℕ) :
    ∀ fuel n, (∀ k, k < n → k ^ 5 < m) → m ≤ (n + fuel) ^ 5 →
      m ≤ ceilRoot5Aux m fuel n ^ 5 ∧ ∀ k, k < ceilRoot5Aux m fuel n → k ^ 5 < m := by
  intro fuel
  induction fuel with
  | zero =>
    intro n hbelow hfit
    exact ⟨by simpa [ceilRoot5Aux] using hfit, by simpa [ceilRoot5Aux] using hbelow⟩
  | succ f ih =>
    intro n hbelow hfit
    simp only [ceilRoot5Aux]
    by_cases hn : m ≤ n ^ 5
    · rw [if_pos hn]
      exact ⟨hn, hbelow⟩
    · rw [if_neg hn]
      apply ih
      · intro k hk
        rcases Nat.lt_succ_iff_lt_or_eq.mp hk with h | h
        · exact hbelow k h
        · subst h
          exact Nat.not_le.mp hn
      · have harith : n + 1 + f = n + (f + 1) := by omega
        rw [harith]
        exact hfit

theorem ceilRoot5_spec (m : ℕ) :
    m ≤ ceilRoot5 m ^ 5 ∧ ∀ k, k < ceilRoot5 m → k ^ 5 < m := by
  apply ceilRoot5Aux_spec
  · intro k hk
    exact absurd hk (Nat.not_lt_zero k)
  · have h1 : m + 1 ≤ (m + 1) ^ 5 := Nat.le_self_pow (by norm_num) _
    simpa using le_trans (Nat.le_succ m) h1

theorem exp_needed_for_spec (L : ℕ) :
    3125 * L ^ 8 ≤ exp_needed_for L ^ 5 ∧
      ∀ k, k < exp_needed_for L → k ^ 5 < 3125 * L ^ 8 :=
  ceilRoot5_spec _

theorem ceilRoot5_pos (m : ℕ) (h : 0 < m) : 0 < ceilRoot5 m := by
  rcases Nat.eq_zero_or_pos (ceilRoot5 m) with h0 | h0
  · exfalso
    have hspec := (ceilRoot5_spec m).1
    rw [h0] at hspec
    simp at hspec
    omega
  · exact h0

theorem exp_needed_for_pos (L : ℕ) (h : 1 ≤ L) : 0 < exp_needed_for L :=
  ceilRoot5_pos _ (Nat.mul_pos (by norm_num) (pow_pos h 8))

/-! ### The rollover loop: unfolding, fuel irrelevance, invariants -/

theorem levelLoopFuel_congr :
    ∀ n m l e s w, (MAX_LEVEL - l).toNat ≤ n → (MAX_LEVEL - l).toNat ≤ m →
      levelLoopFuel n l e s w = levelLoopFuel m l e s w := by
  intro n
  induction n with
  | zero =>
    intro m l e s w hn _
    have hl : ¬ l < MAX_LEVEL := by
      rw [MAX_LEVEL] at hn ⊢
      omega
    cases m with
    | zero => rfl
    | succ m' => simp [levelLoopFuel, hl]
  | succ n' ih =>
    intro m l e s w hn hm
    by_cases hguard : l < MAX_LEVEL ∧ (exp_needed_for l.toNat : ℤ) ≤ e
    · have hl : l < MAX_LEVEL := hguard.1
      have hm1 : 1 ≤ m := by
        rw [MAX_LEVEL] at hl hm
        omega
      cases m with
      | zero => omega
      | succ m' =>
        simp only [levelLoopFuel, if_pos hguard]
        have hrec : levelLoopFuel n' (l + 1) (e - (exp_needed_for l.toNat : ℤ)) (s + 1) (w + 1) =
            levelLoopFuel m' (l + 1) (e - (exp_needed_for l.toNat : ℤ)) (s + 1) (w + 1) := by
          apply ih
          · rw [MAX_LEVEL] at hl hn ⊢
            omega
          · rw [MAX_LEVEL] at hl hm ⊢
            omega
        rw [hrec]
    · cases m with
      | zero =>
        have hl : ¬ l < MAX_LEVEL := by
          rw [MAX_LEVEL] at hm ⊢
          omega
        simp [levelLoopFuel, hl]
      | succ m' => simp [levelLoopFuel, hguard]

theorem level_loop_step (l e s w : ℤ) (hl : l < MAX_LEVEL)
    (he : (exp_needed_for l.toNat : ℤ) ≤ e) :
    level_loop l e s w =
      { level_loop (l + 1) (e - (exp_needed_for l.toNat : ℤ)) (s + 1) (w + 1) with
        notes := Reply.levelUp (l + 1) ::
          (level_loop (l + 1) (e - (exp_needed_for l.toNat : ℤ)) (s + 1) (w + 1)).notes } := by
  unfold level_loop
  have hfuel : (MAX_LEVEL - l).toNat = (MAX_LEVEL - (l + 1)).toNat + 1 := by
    rw [MAX_LEVEL] at hl ⊢
    omega
  rw [hfuel]
  simp only [levelLoopFuel, if_pos (And.intro hl he)]

theorem level_loop_done (l e s w : ℤ)
    (h : ¬ (l < MAX_LEVEL ∧ (exp_needed_for l.toNat : ℤ) ≤ e)) :
    level_loop l e s w = ⟨l, e, s, w, []⟩ := by
  unfold level_loop
  cases hfu : (MAX_LEVEL - l).toNat with
  | zero => rfl
  | succ k => simp [levelLoopFuel, h]

theorem levelLoopFuel_invariant :
    ∀ n l e s w, (MAX_LEVEL - l).toNat ≤ n → 1 ≤ l → l ≤ MAX_LEVEL → 0 ≤ e →
      1 ≤ (levelLoopFuel n l e s w).level ∧
      (levelLoopFuel n l e s w).level ≤ MAX_LEVEL ∧
      0 ≤ (levelLoopFuel n l e s w).exp ∧
      ((levelLoopFuel n l e s w).level = MAX_LEVEL ∨
        (levelLoopFuel n l e s w).exp < (exp_needed_for (levelLoopFuel n l e s w).level.toNat : ℤ)) := by
  intro n
  induction n with
  | zero =>
    intro l e s w hn h1 h2 he
    have hl : l = MAX_LEVEL := by
      rw [MAX_LEVEL] at hn h2 ⊢
      omega
    subst hl
    exact ⟨h1, le_rfl, he, Or.inl rfl⟩
  | succ n' ih =>
    intro l e s w hn h1 h2 he
    by_cases hg : l < MAX_LEVEL ∧ (exp_needed_for l.toNat : ℤ) ≤ e
    · simp only [levelLoopFuel, if_pos hg]
      have hrec := ih (l + 1) (e - (exp_needed_for l.toNat : ℤ)) (s + 1) (w + 1)
        (by rw [MAX_LEVEL] at hn hg ⊢; omega)
        (by omega) (by omega) (by omega)
      simpa using hrec
    · simp only [levelLoopFuel, if_neg hg]
      refine ⟨h1, h2, he, ?_⟩
      rcases not_and_or.mp hg with h | h
      · left
        rw [MAX_LEVEL] at h h2 ⊢
        omega
      · right
        simpa using not_le.mp h

theorem level_loop_invariant (l e s w : ℤ) (h1 : 1 ≤ l) (h2 : l ≤ MAX_LEVEL) (he : 0 ≤ e) :
    1 ≤ (level_loop l e s w).level ∧ (level_loop l e s w).level ≤ MAX_LEVEL ∧
    0 ≤ (level_loop l e s w).exp ∧
    ((level_loop l e s w).level = MAX_LEVEL ∨
      (level_loop l e s w).exp < (exp_needed_for (level_loop l e s w).level.toNat : ℤ)) :=
  levelLoopFuel_invariant _ l e s w le_rfl h1 h2 he

theorem levelLoopFuel_notes :
    ∀ n l e s w, ∃ k : ℕ,
      (levelLoopFuel n l e s w).level = l + (k : ℤ) ∧
      (levelLoopFuel n l e s w).notes =
        (List.range k).map (fun i : ℕ => Reply.levelUp (l + 1 + (i : ℤ))) := by
  intro n
  induction n with
  | zero =>
    intro l e s w
    exact ⟨0, by simp [levelLoopFuel]⟩
  | succ n' ih =>
    intro l e s w
    by_cases hg : l < MAX_LEVEL ∧ (exp_needed_for l.toNat : ℤ) ≤ e
    · simp only [levelLoopFuel, if_pos hg]
      obtain ⟨k, hk1, hk2⟩ := ih (l + 1) (e - (exp_needed_for l.toNat : ℤ)) (s + 1) (w + 1)
      refine ⟨k + 1, ?_, ?_⟩
      · simp only [hk1]
        push_cast
        ring
      · simp only [LoopOut.notes, hk2]
        have hfun : (fun i : ℕ => Reply.levelUp (l + 1 + 1 + (i : ℤ))) =
            ((fun i : ℕ => Reply.levelUp (l + 1 + (i : ℤ))) ∘ Nat.succ) := by
          funext i
          simp only [Function.comp_apply]
          congr 1
          push_cast
          ring
        rw [List.range_succ_eq_map, List.map_cons, List.map_map, ← hfun]
        simp
    · simp only [levelLoopFuel, if_neg hg]
      exact ⟨0, by simp, by simp⟩

theorem level_loop_notes (l e s w : ℤ) :
    ∃ k : ℕ, (level_loop l e s w).level = l + (k : ℤ) ∧
      (level_loop l e s w).notes =
        (List.range k).map (fun i : ℕ => Reply.levelUp (l + 1 + (i : ℤ))) :=
  levelLoopFuel_notes _ l e s w

/-! ### Store primitives -/

theorem ensure_user_noop (s : Store) (uid : ℤ) (now : ℤ) (r : UserRecord)
    (h : s uid = some r) : ensure_user s uid now = s := by
  unfold ensure_user
  rw [h]

theorem ensure_user_frame (s : Store) (uid : ℤ) (now : ℤ) (b : ℤ) (h : b ≠ uid) :
    ensure_user s uid now b = s b := by
  unfold ensure_user
  cases hu : s uid with
  | some r => rfl
  | none => simp [h]

theorem ensure_user_creates (s : Store) (uid : ℤ) (now : ℤ) (h : s uid = none) :
    ensure_user s uid now uid = some (freshRecord uid now) := by
  unfold ensure_user
  rw [h]
  simp

theorem update_user_get (s : Store) (uid : ℤ) (p : Patch) :
    update_user s uid p uid = (s uid).map (fun r => applyPatch r p) := by
  simp [update_user]

theorem update_user_frame (s : Store) (uid : ℤ) (p : Patch) (b : ℤ) (h : b ≠ uid) :
    update_user s uid p b = s b := by
  simp [update_user, h]

theorem check_level_up_eq (s : Store) (uid : ℤ) (r : UserRecord) (h : s uid = some r) :
    check_level_up s uid =
      some (update_user s uid (roll_patch (level_loop r.level r.exp r.sun r.water)),
        (level_loop r.level r.exp r.sun r.water).notes,
        roll_patch (level_loop r.level r.exp r.sun r.water)) := by
  unfold check_level_up
  rw [h]

theorem ensure_user_idem (s : Store) (uid : ℤ) (now now₂ : ℤ) :
    ensure_user (ensure_user s uid now) uid now₂ = ensure_user s uid now := by
  cases hu : s uid with
  | some r => rw [ensure_user_noop s uid now r hu, ensure_user_noop s uid now₂ r hu]
  | none => exact ensure_user_noop _ uid now₂ _ (ensure_user_creates s uid now hu)

/-! ### Handler shapes: blocked and successful invocations on an existing record -/

theorem handler_water_blocked (g : BotState) (uid : ℤ) (now : ℤ) (r : UserRecord)
    (hr : g.store uid = some r) (hb : now - r.last_water < WATER_COOLDOWN) :
    handler_water g uid now =
      some ⟨g, [Reply.waterBlocked (((WATER_COOLDOWN - (now - r.last_water))).fdiv 60)
        (((WATER_COOLDOWN - (now - r.last_water))).fmod 60)], []⟩ := by
  simp only [handler_water, ensure_user_noop g.store uid now r hr, hr, if_pos hb]

theorem handler_water_success (g : BotState) (uid : ℤ) (now : ℤ) (r : UserRecord)
    (hr : g.store uid = some r) (hb : ¬ now - r.last_water < WATER_COOLDOWN) :
    handler_water g uid now =
      some ⟨⟨update_user (update_user g.store uid (water_patch r now)) uid
          (roll_patch (level_loop r.level (r.exp + 2) r.sun (r.water + 1))),
        g.last_sun⟩,
        Reply.waterSuccess :: (level_loop r.level (r.exp + 2) r.sun (r.water + 1)).notes,
        [(uid, water_patch r now),
          (uid, roll_patch (level_loop r.level (r.exp + 2) r.sun (r.water + 1)))]⟩ := by
  have hs2 : update_user g.store uid (water_patch r now) uid =
      some (applyPatch r (water_patch r now)) := by
    rw [update_user_get, hr]
    rfl
  have hcl := check_level_up_eq (update_user g.store uid (water_patch r now)) uid _ hs2
  simp only [handler_water, ensure_user_noop g.store uid now r hr, hr, if_neg hb, hcl]
  simp [applyPatch, water_patch]

theorem handler_sun_blocked (g : BotState) (uid : ℤ) (now : ℤ) (r : UserRecord)
    (hr : g.store uid = some r) (hb : now - g.last_sun < SUN_COOLDOWN) :
    handler_sun g uid now =
      some ⟨g, [Reply.sunBlocked (((SUN_COOLDOWN - (now - g.last_sun))).fdiv 60)
        (((SUN_COOLDOWN - (now - g.last_sun))).fmod 60)], []⟩ := by
  simp only [handler_sun, ensure_user_noop g.store uid now r hr, hr, if_pos hb]

theorem handler_sun_success (g : BotState) (uid : ℤ) (now : ℤ) (r : UserRecord)
    (hr : g.store uid = some r) (hb : ¬ now - g.last_sun < SUN_COOLDOWN) :
    handler_sun g uid now =
      some ⟨⟨update_user (update_user g.store uid (sun_patch r)) uid
          (roll_patch (level_loop r.level (r.exp + 2) (r.sun + 1) r.water)),
        now⟩,
        Reply.sunSuccess :: (level_loop r.level (r.exp + 2) (r.sun + 1) r.water).notes,
        [(uid, sun_patch r),
          (uid, roll_patch (level_loop r.level (r.exp + 2) (r.sun + 1) r.water))]⟩ := by
  have hs2 : update_user g.store uid (sun_patch r) uid = some (applyPatch r (sun_patch r)) := by
    rw [update_user_get, hr]
    rfl
  have hcl := check_level_up_eq (update_user g.store uid (sun_patch r)) uid _ hs2
  simp only [handler_sun, ensure_user_noop g.store uid now r hr, hr, if_neg hb, hcl]
  simp [applyPatch, sun_patch]

theorem handler_daily_blocked (g : BotState) (uid : ℤ) (now : ℤ) (r : UserRecord)
    (hr : g.store uid = some r) (hb : now - r.last_daily < DAILY_COOLDOWN) :
    handler_daily g uid now =
      some ⟨g, [Reply.dailyBlocked ((((r.last_daily + DAILY_COOLDOWN) - now)).fdiv 3600)
        (((((r.last_daily + DAILY_COOLDOWN) - now)).fmod 3600).fdiv 60)], []⟩ := by
  simp only [handler_daily, ensure_user_noop g.store uid now r hr, hr, if_pos hb]

theorem handler_daily_success (g : BotState) (uid : ℤ) (now : ℤ) (r : UserRecord)
    (hr : g.store uid = some r) (hb : ¬ now - r.last_daily < DAILY_COOLDOWN) :
    handler_daily g uid now =
      some ⟨⟨update_user (update_user g.store uid (daily_patch r now)) uid
          (roll_patch (level_loop r.level (r.exp + (5 + r.level))
            (r.sun + (1 + r.level.fdiv 5)) (r.water + (1 + r.level.fdiv 6)))),
        g.last_sun⟩,
        Reply.dailySuccess (1 + r.level.fdiv 5) (1 + r.level.fdiv 6) (5 + r.level) ::
          (level_loop r.level (r.exp + (5 + r.level))
            (r.sun + (1 + r.level.fdiv 5)) (r.water + (1 + r.level.fdiv 6))).notes,
        [(uid, daily_patch r now),
          (uid, roll_patch (level_loop r.level (r.exp + (5 + r.level))
            (r.sun + (1 + r.level.fdiv 5)) (r.water + (1 + r.level.fdiv 6))))]⟩ := by
  have hs2 : update_user g.store uid (daily_patch r now) uid =
      some (applyPatch r (daily_patch r now)) := by
    rw [update_user_get, hr]
    rfl
  have hcl := check_level_up_eq (update_user g.store uid (daily_patch r now)) uid _ hs2
  simp only [handler_daily, ensure_user_noop g.store uid now r hr, hr, if_neg hb, hcl]
  simp [applyPatch, daily_patch]

/-! ### Frame lemmas: an action touches only the acting user's row -/

theorem handler_water_ensure (g : BotState) (uid : ℤ) (now : ℤ) :
    handler_water g uid now =
      handler_water ⟨ensure_user g.store uid now, g.last_sun⟩ uid now := by
  simp only [handler_water, ensure_user_idem]

theorem handler_sun_ensure (g : BotState) (uid : ℤ) (now : ℤ) :
    handler_sun g uid now =
      handler_sun ⟨ensure_user g.store uid now, g.last_sun⟩ uid now := by
  simp only [handler_sun, ensure_user_idem]

theorem handler_daily_ensure (g : BotState) (uid : ℤ) (now : ℤ) :
    handler_daily g uid now =
      handler_daily ⟨ensure_user g.store uid now, g.last_sun⟩ uid now := by
  simp only [handler_daily, ensure_user_idem]

theorem ensure_user_exists (s : Store) (uid : ℤ) (now : ℤ) :
    ∃ r, ensure_user s uid now uid = some r := by
  rcases hu : s uid with _ | r
  · exact ⟨_, ensure_user_creates s uid now hu⟩
  · exact ⟨r, by rw [ensure_user_noop s uid now r hu, hu]⟩

theorem handler_water_frame (g : BotState) (uid : ℤ) (now : ℤ) (b : ℤ) (hb : b ≠ uid)
    (res : ActionResult) (h : handler_water g uid now = some res) :
    res.state.store b = g.store b := by
  have hens : ensure_user g.store uid now b = g.store b := ensure_user_frame _ _ _ _ hb
  rw [handler_water_ensure] at h
  obtain ⟨r, hr⟩ := ensure_user_exists g.store uid now
  by_cases hc : now - r.last_water < WATER_COOLDOWN
  · rw [handler_water_blocked ⟨ensure_user g.store uid now, g.last_sun⟩ uid now r hr hc] at h
    injection h with h'
    rw [← h']
    exact hens
  · rw [handler_water_success ⟨ensure_user g.store uid now, g.last_sun⟩ uid now r hr hc] at h
    injection h with h'
    rw [← h']
    show update_user (update_user (ensure_user g.store uid now) uid _) uid _ b = g.store b
    rw [update_user_frame _ _ _ _ hb, update_user_frame _ _ _ _ hb]
    exact hens

theorem handler_sun_frame (g : BotState) (uid : ℤ) (now : ℤ) (b : ℤ) (hb : b ≠ uid)
    (res : ActionResult) (h : handler_sun g uid now = some res) :
    res.state.store b = g.store b := by
  have hens : ensure_user g.store uid now b = g.store b := ensure_user_frame _ _ _ _ hb
  rw [handler_sun_ensure] at h
  obtain ⟨r, hr⟩ := ensure_user_exists g.store uid now
  by_cases hc : now - g.last_sun < SUN_COOLDOWN
  · rw [handler_sun_blocked ⟨ensure_user g.store uid now, g.last_sun⟩ uid now r hr hc] at h
    injection h with h'
    rw [← h']
    exact hens
  · rw [handler_sun_success ⟨ensure_user g.store uid now, g.last_sun⟩ uid now r hr hc] at h
    injection h with h'
    rw [← h']
    show update_user (update_user (ensure_user g.store uid now) uid _) uid _ b = g.store b
    rw [update_user_frame _ _ _ _ hb, update_user_frame _ _ _ _ hb]
    exact hens

theorem handler_daily_frame (g : BotState) (uid : ℤ) (now : ℤ) (b : ℤ) (hb : b ≠ uid)
    (res : ActionResult) (h : handler_daily g uid now = some res) :
    res.state.store b = g.store b := by
  have hens : ensure_user g.store uid now b = g.store b := ensure_user_frame _ _ _ _ hb
  rw [handler_daily_ensure] at h
  obtain ⟨r, hr⟩ := ensure_user_exists g.store uid now
  by_cases hc : now - r.last_daily < DAILY_COOLDOWN
  · rw [handler_daily_blocked ⟨ensure_user g.store uid now, g.last_sun⟩ uid now r hr hc] at h
    injection h with h'
    rw [← h']
    exact hens
  · rw [handler_daily_success ⟨ensure_user g.store uid now, g.last_sun⟩ uid now r hr hc] at h
    injection h with h'
    rw [← h']
    show update_user (update_user (ensure_user g.store uid now) uid _) uid _ b = g.store b
    rw [update_user_frame _ _ _ _ hb, update_user_frame _ _ _ _ hb]
    exact hens

theorem handler_status_frame (g : BotState) (uid : ℤ) (now : ℤ) (b : ℤ) (hb : b ≠ uid)
    (res : ActionResult) (h : handler_status g uid now = some res) :
    res.state.store b = g.store b := by
  have hens : ensure_user g.store uid now b = g.store b := ensure_user_frame _ _ _ _ hb
  simp only [handler_status] at h
  rcases hu : ensure_user g.store uid now uid with _ | r
  · simp only [hu] at h
    exact Option.noConfusion h
  · simp only [hu] at h
    injection h with h'
    rw [← h']
    exact hens

theorem handler_profile_frame (g : BotState) (uid : ℤ) (now : ℤ) (b : ℤ) (hb : b ≠ uid)
    (res : ActionResult) (h : handler_profile g uid now = some res) :
    res.state.store b = g.store b := by
  have hens : ensure_user g.store uid now b = g.store b := ensure_user_frame _ _ _ _ hb
  simp only [handler_profile] at h
  rcases hu : ensure_user g.store uid now uid with _ | r
  · simp only [hu] at h
    exact Option.noConfusion h
  · simp only [hu] at h
    injection h with h'
    rw [← h']
    exact hens

/-! ### Claim theorems -/

/-- C1: the claim says the sun action is gated by each user's own last-sun
timestamp, so one user's sun action never changes whether another user's is
blocked.  The code instead keeps a single process-global
`handler_sun.last_sun`: in a fresh process, user 1's successful sun action
at `t = 1000` makes user 2's first-ever sun attempt at `t = 1001` blocked
(with 9 min 59 s remaining), leaving user 2's freshly created zero record
untouched — under per-user gating user 2 (last-sun never set, i.e. 0)
would have been allowed since `1001 - 0 ≥ 600`. -/
theorem C1_sun_cooldown_shared_evidence :
    (handler_sun initState 1 1000).map (fun res => res.replies) = some [Reply.sunSuccess] ∧
    ((handler_sun initState 1 1000).bind (fun res => handler_sun res.state 2 1001)).map
      (fun res => res.replies) = some [Reply.sunBlocked 9 59] ∧
    ((handler_sun initState 1 1000).bind (fun res => handler_sun res.state 2 1001)).map
      (fun res => res.state.store 2) = some (some (freshRecord 2 1001)) ∧
    (1001 : ℤ) - 0 ≥ SUN_COOLDOWN :=
  ⟨by decide, by decide, by decide, by decide⟩

/-- C2 counterexample: a successful water action performs two store
updates, not one.  With user 1 at level 1 and 3 exp, watering at `t = 1000`
first writes `(water, exp, last_water)`, leaving a persisted intermediate
state with `exp = 5 = exp_needed_for 1` and `level` still 1 (reward
applied, level-up pending), and only a second write applies the rollover
(`level = 2`, `exp = 0`). -/
theorem C2_counterexample :
    (handler_water c2G 1 1000).map (fun res => res.writes.length) = some 2 ∧
    (handler_water c2G 1 1000).map (fun res => applyWrites c2G.store (res.writes.take 1) 1) =
      some (some ⟨1, 0, 1000, 0, 1, 5, 0, 1⟩) ∧
    (exp_needed_for 1 : ℤ) ≤ 5 ∧
    (handler_water c2G 1 1000).map (fun res => applyWrites c2G.store res.writes 1) =
      some (some ⟨1, 0, 1000, 0, 2, 0, 1, 2⟩) ∧
    (handler_water c2G 1 1000).map (fun res => res.state.store 1) =
      some (some ⟨1, 0, 1000, 0, 2, 0, 1, 2⟩) :=
  ⟨by decide, by decide, by decide, by decide, by decide⟩

/-- C2 amended: each state-mutating handler persists its direct reward
fields in a first update (for water and daily including the cooldown
timestamp; the sun handler persists no timestamp at all), and the level-up
rollover's `level`/`exp`/`sun`/`water` in a second, separate update issued
only after the rollover computation finishes; the resulting store is the
two updates applied in order, so an intermediate state with rewards
applied but level-ups pending is written between them. -/
theorem C2_two_phase_persistence (g : BotState) (uid now : ℤ) (r : UserRecord)
    (hr : g.store uid = some r) :
    (¬ now - r.last_water < WATER_COOLDOWN →
      ∃ res, handler_water g uid now = some res ∧
        res.writes = [(uid, water_patch r now),
          (uid, roll_patch (level_loop r.level (r.exp + 2) r.sun (r.water + 1)))] ∧
        res.state.store = update_user (update_user g.store uid (water_patch r now)) uid
          (roll_patch (level_loop r.level (r.exp + 2) r.sun (r.water + 1)))) ∧
    (¬ now - g.last_sun < SUN_COOLDOWN →
      ∃ res, handler_sun g uid now = some res ∧
        res.writes = [(uid, sun_patch r),
          (uid, roll_patch (level_loop r.level (r.exp + 2) (r.sun + 1) r.water))] ∧
        res.state.store = update_user (update_user g.store uid (sun_patch r)) uid
          (roll_patch (level_loop r.level (r.exp + 2) (r.sun + 1) r.water))) ∧
    (¬ now - r.last_daily < DAILY_COOLDOWN →
      ∃ res, handler_daily g uid now = some res ∧
        res.writes = [(uid, daily_patch r now),
          (uid, roll_patch (level_loop r.level (r.exp + (5 + r.level))
            (r.sun + (1 + r.level.fdiv 5)) (r.water + (1 + r.level.fdiv 6))))] ∧
        res.state.store = update_user (update_user g.store uid (daily_patch r now)) uid
          (roll_patch (level_loop r.level (r.exp + (5 + r.level))
            (r.sun + (1 + r.level.fdiv 5)) (r.water + (1 + r.level.fdiv 6))))) := by
  refine ⟨fun hb => ?_, fun hb => ?_, fun hb => ?_⟩
  · exact ⟨_, handler_water_success g uid now r hr hb, rfl, rfl⟩
  · exact ⟨_, handler_sun_success g uid now r hr hb, rfl, rfl⟩
  · exact ⟨_, handler_daily_success g uid now r hr hb, rfl, rfl⟩

/-- C2 amended, witnessed at the concrete state of the counterexample. -/
theorem C2_two_phase_persistence_witness :
    (handler_water c2G 1 1000).map (fun res => res.writes) =
      some [(1, water_patch c2R 1000),
        (1, roll_patch (level_loop c2R.level (c2R.exp + 2) c2R.sun (c2R.water + 1)))] := by
  obtain ⟨res, h1, h2, h3⟩ := (C2_two_phase_persistence c2G 1 1000 c2R rfl).1 (by decide)
  rw [h1]
  exact congrArg some h2

/-- C3: the rollover loop repeats while `level < MAX_LEVEL` and
`exp ≥ exp_needed_for level`, each iteration subtracting the requirement,
incrementing the level and granting +1 sun and +1 water; it stops
otherwise; it emits exactly one notification per level gained, in order;
and a level-1 user with 0 exp who gains exactly 5 exp ends at level 2 with
0 exp, sun and water each one above their previous values. -/
theorem C3_level_rollover :
    (∀ l e s w : ℤ, l < MAX_LEVEL → (exp_needed_for l.toNat : ℤ) ≤ e →
      level_loop l e s w =
        { level_loop (l + 1) (e - (exp_needed_for l.toNat : ℤ)) (s + 1) (w + 1) with
          notes := Reply.levelUp (l + 1) ::
            (level_loop (l + 1) (e - (exp_needed_for l.toNat : ℤ)) (s + 1) (w + 1)).notes }) ∧
    (∀ l e s w : ℤ, ¬ (l < MAX_LEVEL ∧ (exp_needed_for l.toNat : ℤ) ≤ e) →
      level_loop l e s w = ⟨l, e, s, w, []⟩) ∧
    (∀ l e s w : ℤ, ∃ k : ℕ, (level_loop l e s w).level = l + (k : ℤ) ∧
      (level_loop l e s w).notes =
        (List.range k).map (fun i : ℕ => Reply.levelUp (l + 1 + (i : ℤ)))) ∧
    (∀ s w : ℤ, level_loop 1 5 s w = ⟨2, 0, s + 1, w + 1, [Reply.levelUp 2]⟩) := by
  refine ⟨fun l e s w hl he => level_loop_step l e s w hl he,
    fun l e s w h => level_loop_done l e s w h,
    fun l e s w => level_loop_notes l e s w, ?_⟩
  intro s w
  have h5 : (exp_needed_for (1 : ℤ).toNat : ℤ) = 5 := by decide
  rw [level_loop_step 1 5 s w (by decide) (by rw [h5])]
  rw [level_loop_done (1 + 1) (5 - (exp_needed_for (1 : ℤ).toNat : ℤ)) (s + 1) (w + 1)
    (by decide)]
  rw [h5]
  norm_num

/-- C3, witnessed: a level-1 user with 3 sun and 4 water who reaches 5 exp
rolls over to level 2 with 0 exp, 4 sun, 5 water and one notification. -/
theorem C3_level_rollover_witness :
    level_loop 1 5 3 4 = ⟨2, 0, 4, 5, [Reply.levelUp 2]⟩ :=
  C3_level_rollover.2.2.2 3 4

/-- C4 counterexample: the claim quantifies over every input state with
`level ≥ 1` and `exp ≥ 0` and every gain ≥ 0, but at input level 21
(> MAX_LEVEL) with 0 exp and gain 0 the rollover leaves the level at
21 > MAX_LEVEL, contradicting the claimed output bound `level ≤ MAX_LEVEL`. -/
theorem C4_counterexample :
    1 ≤ (21 : ℤ) ∧ 0 ≤ (0 : ℤ) ∧ 0 ≤ (0 : ℤ) ∧
    (level_loop 21 (0 + 0) 0 0).level = 21 ∧
    MAX_LEVEL < (level_loop 21 (0 + 0) 0 0).level :=
  ⟨by decide, by decide, by decide, by decide, by decide⟩

/-- C4 amended: for every input state additionally satisfying
`level ≤ MAX_LEVEL` (the data-model invariant), the rollover of
`exp + gain` yields `level ≤ MAX_LEVEL`, non-negative experience, and
`exp < exp_needed_for level` unless `level = MAX_LEVEL`; at `MAX_LEVEL`
the state is returned unchanged apart from the accumulated experience. -/
theorem C4_rollover_invariants (l e g s w : ℤ) (h1 : 1 ≤ l) (h2 : l ≤ MAX_LEVEL)
    (he : 0 ≤ e) (hg : 0 ≤ g) :
    (level_loop l (e + g) s w).level ≤ MAX_LEVEL ∧
    0 ≤ (level_loop l (e + g) s w).exp ∧
    ((level_loop l (e + g) s w).level = MAX_LEVEL ∨
      (level_loop l (e + g) s w).exp <
        (exp_needed_for (level_loop l (e + g) s w).level.toNat : ℤ)) ∧
    (l = MAX_LEVEL → level_loop l (e + g) s w = ⟨l, e + g, s, w, []⟩) := by
  obtain ⟨-, hA, hB, hC⟩ := level_loop_invariant l (e + g) s w h1 h2 (by omega)
  refine ⟨hA, hB, hC, ?_⟩
  intro hmax
  apply level_loop_done
  rw [hmax]
  simp

/-- C4 amended, witnessed at a level-1 user gaining 5 exp. -/
theorem C4_rollover_invariants_witness :
    (level_loop 1 (0 + 5) 0 0).level ≤ MAX_LEVEL ∧
    0 ≤ (level_loop 1 (0 + 5) 0 0).exp ∧
    ((level_loop 1 (0 + 5) 0 0).level = MAX_LEVEL ∨
      (level_loop 1 (0 + 5) 0 0).exp <
        (exp_needed_for (level_loop 1 (0 + 5) 0 0).level.toNat : ℤ)) ∧
    ((1 : ℤ) = MAX_LEVEL → level_loop 1 (0 + 5) 0 0 = ⟨1, 0 + 5, 0, 0, []⟩) :=
  C4_rollover_invariants 1 0 5 0 0 (by decide) (by decide) (by decide) (by decide)

/-- C5: for each cooldown-gated action, with `T` the timestamp the code
consults (the record's `last_water`/`last_daily`, and for sun the
process-global last-sun — see C1) and duration `D`: the action is blocked
iff `now - T < D`; a blocked invocation returns exactly the single
remaining-wait message carrying `D - (now - T)` split per the source's
floor divisions, performs no write, and leaves the process state (hence
every field of the user's record) unchanged; at `now - T = D` and beyond,
the action succeeds; and the remaining wait strictly decreases as `now`
advances. -/
theorem C5_cooldown_gate (g : BotState) (uid now : ℤ) (r : UserRecord)
    (hr : g.store uid = some r) :
    ((now - r.last_water < WATER_COOLDOWN →
        handler_water g uid now =
          some ⟨g, [Reply.waterBlocked ((WATER_COOLDOWN - (now - r.last_water)).fdiv 60)
            ((WATER_COOLDOWN - (now - r.last_water)).fmod 60)], []⟩) ∧
      (WATER_COOLDOWN ≤ now - r.last_water →
        (handler_water g uid now).map (fun res => res.replies.head?) =
          some (some Reply.waterSuccess))) ∧
    ((now - g.last_sun < SUN_COOLDOWN →
        handler_sun g uid now =
          some ⟨g, [Reply.sunBlocked ((SUN_COOLDOWN - (now - g.last_sun)).fdiv 60)
            ((SUN_COOLDOWN - (now - g.last_sun)).fmod 60)], []⟩) ∧
      (SUN_COOLDOWN ≤ now - g.last_sun →
        (handler_sun g uid now).map (fun res => res.replies.head?) =
          some (some Reply.sunSuccess))) ∧
    ((now - r.last_daily < DAILY_COOLDOWN →
        handler_daily g uid now =
          some ⟨g, [Reply.dailyBlocked (((r.last_daily + DAILY_COOLDOWN) - now).fdiv 3600)
            ((((r.last_daily + DAILY_COOLDOWN) - now).fmod 3600).fdiv 60)], []⟩) ∧
      (DAILY_COOLDOWN ≤ now - r.last_daily →
        (handler_daily g uid now).map (fun res => res.replies.head?) =
          some (some (Reply.dailySuccess (1 + r.level.fdiv 5) (1 + r.level.fdiv 6)
            (5 + r.level))))) ∧
    (∀ n1 n2 : ℤ, n1 < n2 →
      WATER_COOLDOWN - (n2 - r.last_water) < WATER_COOLDOWN - (n1 - r.last_water) ∧
      SUN_COOLDOWN - (n2 - g.last_sun) < SUN_COOLDOWN - (n1 - g.last_sun) ∧
      DAILY_COOLDOWN - (n2 - r.last_daily) < DAILY_COOLDOWN - (n1 - r.last_daily)) := by
  refine ⟨⟨fun h => handler_water_blocked g uid now r hr h, fun h => ?_⟩,
    ⟨fun h => handler_sun_blocked g uid now r hr h, fun h => ?_⟩,
    ⟨fun h => handler_daily_blocked g uid now r hr h, fun h => ?_⟩,
    fun n1 n2 h => ⟨by omega, by omega, by omega⟩⟩
  · rw [handler_water_success g uid now r hr (by omega)]
    rfl
  · rw [handler_sun_success g uid now r hr (by omega)]
    rfl
  · rw [handler_daily_success g uid now r hr (by omega)]
    rfl

/-- C5, witnessed: user 1 last watered at 800; at `now = 900` the water
action is blocked with 3 min 20 s remaining, no write, state unchanged;
at `now = 1100` (elapsed exactly 300 s) it succeeds. -/
theorem C5_cooldown_gate_witness :
    (handler_water c5G 1 900).map (fun res => res.replies) =
      some [Reply.waterBlocked 3 20] ∧
    handler_water c5G 1 900 = some ⟨c5G, [Reply.waterBlocked 3 20], []⟩ ∧
    (handler_water c5G 1 1100).map (fun res => res.replies.head?) =
      some (some Reply.waterSuccess) := by
  have hb := (C5_cooldown_gate c5G 1 900 c5R rfl).1.1 (by decide)
  have hs := (C5_cooldown_gate c5G 1 1100 c5R rfl).1.2 (by decide)
  refine ⟨?_, ?_, hs⟩
  · rw [hb]
    decide
  · rw [hb]
    rfl

set_option maxRecDepth 100000 in
theorem exp_needed_mono_lt_21 :
    ∀ L : ℕ, L < 21 → 1 ≤ L → exp_needed_for L < exp_needed_for (L + 1) := by decide

theorem exp_needed_for_eq_ceil (L : ℕ) :
    (exp_needed_for L : ℤ) = ⌈(5 : ℝ) * (L : ℝ) ^ (1.6 : ℝ)⌉ := by
  have hL : (0 : ℝ) ≤ (L : ℝ) := Nat.cast_nonneg L
  have h16 : (1.6 : ℝ) = 8 / 5 := by norm_num
  set x : ℝ := (5 : ℝ) * (L : ℝ) ^ (1.6 : ℝ) with hxdef
  have hxnn : 0 ≤ x := by
    rw [hxdef]
    positivity
  have hx5 : x ^ (5 : ℕ) = 3125 * (L : ℝ) ^ (8 : ℕ) := by
    rw [hxdef, h16, mul_pow, ← Real.rpow_natCast ((L : ℝ) ^ ((8 : ℝ) / 5)) 5,
      ← Real.rpow_mul hL]
    rw [show ((8 : ℝ) / 5 * ((5 : ℕ) : ℝ)) = ((8 : ℕ) : ℝ) by norm_num, Real.rpow_natCast]
    norm_num
  have hupper : x ≤ ((exp_needed_for L : ℕ) : ℝ) := by
    have hn5 : (3125 * L ^ 8 : ℕ) ≤ exp_needed_for L ^ 5 := (exp_needed_for_spec L).1
    have hn5R : x ^ (5 : ℕ) ≤ ((exp_needed_for L : ℕ) : ℝ) ^ (5 : ℕ) := by
      rw [hx5]
      exact_mod_cast hn5
    exact le_of_pow_le_pow_left₀ (by norm_num) (Nat.cast_nonneg _) hn5R
  have hlower : ((exp_needed_for L : ℕ) : ℝ) - 1 < x := by
    rcases Nat.eq_zero_or_pos (exp_needed_for L) with h0 | h0
    · rw [h0]
      simpa using lt_of_lt_of_le (by norm_num : (-1 : ℝ) < 0) hxnn
    · have hk := (exp_needed_for_spec L).2 (exp_needed_for L - 1) (by omega)
      have hkR : ((exp_needed_for L - 1 : ℕ) : ℝ) ^ (5 : ℕ) < x ^ (5 : ℕ) := by
        rw [hx5]
        exact_mod_cast hk
      have hlt := lt_of_pow_lt_pow_left₀ 5 hxnn hkR
      have hcast : ((exp_needed_for L - 1 : ℕ) : ℝ) = ((exp_needed_for L : ℕ) : ℝ) - 1 := by
        have h1 : 1 ≤ exp_needed_for L := h0
        push_cast [Nat.cast_sub h1]
        ring
      linarith
  symm
  rw [Int.ceil_eq_iff]
  constructor
  · push_cast
    exact hlower
  · push_cast
    exact hupper

/-- C6: `exp_needed_for level` is exactly the ceiling of `5 * level ^ 1.6`
(as a real number), and it is strictly increasing on levels 1 to
`MAX_LEVEL`. -/
theorem C6_exp_requirement :
    (∀ L : ℕ, (exp_needed_for L : ℤ) = ⌈(5 : ℝ) * (L : ℝ) ^ (1.6 : ℝ)⌉) ∧
    (∀ L : ℕ, 1 ≤ L → (L : ℤ) ≤ MAX_LEVEL → exp_needed_for L < exp_needed_for (L + 1)) := by
  constructor
  · exact exp_needed_for_eq_ceil
  · intro L h1 h2
    have h2n : L < 21 := by
      rw [show MAX_LEVEL = (20 : ℤ) from rfl] at h2
      omega
    exact exp_needed_mono_lt_21 L h2n h1

/-- C6, witnessed at levels 1 and 20. -/
theorem C6_exp_requirement_witness :
    (exp_needed_for 1 : ℤ) = ⌈(5 : ℝ) * ((1 : ℕ) : ℝ) ^ (1.6 : ℝ)⌉ ∧
    exp_needed_for 20 < exp_needed_for 21 :=
  ⟨C6_exp_requirement.1 1, C6_exp_requirement.2 20 (by decide) (by decide)⟩

/-- C7: a successful daily bonus for a user at level `L` first persists
exactly the reward `sun += 1 + L/5`, `water += 1 + L/6`, `exp += 5 + L`
together with `last_daily = now` in its reward update, replies with those
three reward amounts, and the final stored record (after the rollover
update) still has `last_daily = now`. -/
theorem C7_daily_reward (g : BotState) (uid now : ℤ) (r : UserRecord)
    (hr : g.store uid = some r) (hb : ¬ now - r.last_daily < DAILY_COOLDOWN) :
    ∃ res, handler_daily g uid now = some res ∧
      res.writes.head? = some (uid, daily_patch r now) ∧
      daily_patch r now =
        { sun := some (r.sun + (1 + r.level.fdiv 5)),
          water := some (r.water + (1 + r.level.fdiv 6)),
          exp := some (r.exp + (5 + r.level)),
          last_daily := some now, last_water := none, level := none } ∧
      res.replies.head? =
        some (Reply.dailySuccess (1 + r.level.fdiv 5) (1 + r.level.fdiv 6) (5 + r.level)) ∧
      res.state.store uid =
        some (applyPatch (applyPatch r (daily_patch r now))
          (roll_patch (level_loop r.level (r.exp + (5 + r.level))
            (r.sun + (1 + r.level.fdiv 5)) (r.water + (1 + r.level.fdiv 6))))) ∧
      (applyPatch (applyPatch r (daily_patch r now))
        (roll_patch (level_loop r.level (r.exp + (5 + r.level))
          (r.sun + (1 + r.level.fdiv 5)) (r.water + (1 + r.level.fdiv 6))))).last_daily =
        now := by
  refine ⟨_, handler_daily_success g uid now r hr hb, rfl, rfl, rfl, ?_, ?_⟩
  · show update_user (update_user g.store uid (daily_patch r now)) uid _ uid = _
    rw [update_user_get, update_user_get, hr]
    rfl
  · simp [applyPatch, daily_patch, roll_patch]

/-- C7, witnessed at level 10: the daily bonus grants sun +3, water +2,
exp +15. -/
theorem C7_daily_reward_witness :
    (handler_daily c7G 1 100000).map (fun res => res.replies.head?) =
      some (some (Reply.dailySuccess 3 2 15)) ∧
    (handler_daily c7G 1 100000).map (fun res => res.writes.head?) =
      some (some (1, daily_patch c7R 100000)) := by
  obtain ⟨res, h1, h2, h3, h4, h5, h6⟩ := C7_daily_reward c7G 1 100000 c7R rfl (by decide)
  constructor
  · rw [h1]
    show some res.replies.head? = _
    rw [h4]
    decide
  · rw [h1]
    exact congrArg some h2

/-- C8: `ensure_user` creates the zero-state record exactly when none
exists, is a strict no-op (the store is unchanged, no field overwritten)
when a record exists, and is idempotent: ensuring twice, even at a later
time, yields the same store as ensuring once. -/
theorem C8_ensure_idempotent :
    (∀ (s : Store) (uid now : ℤ), s uid = none →
      ensure_user s uid now uid = some (freshRecord uid now)) ∧
    (∀ (s : Store) (uid now : ℤ) (r : UserRecord), s uid = some r →
      ensure_user s uid now = s) ∧
    (∀ (s : Store) (uid now now₂ : ℤ),
      ensure_user (ensure_user s uid now) uid now₂ = ensure_user s uid now) :=
  ⟨fun s uid now h => ensure_user_creates s uid now h,
   fun s uid now r h => ensure_user_noop s uid now r h,
   fun s uid now now₂ => ensure_user_idem s uid now now₂⟩

/-- C8, witnessed on an empty store and on a one-record store. -/
theorem C8_ensure_idempotent_witness :
    ensure_user (fun _ => none) 1 1000 1 = some (freshRecord 1 1000) ∧
    ensure_user (fun v => if v = 2 then some (freshRecord 2 5) else none) 2 77 =
      (fun v => if v = 2 then some (freshRecord 2 5) else none) ∧
    ensure_user (ensure_user (fun _ => none) 3 10) 3 20 = ensure_user (fun _ => none) 3 10 :=
  ⟨C8_ensure_idempotent.1 (fun _ => none) 1 1000 rfl,
   C8_ensure_idempotent.2.1 (fun v => if v = 2 then some (freshRecord 2 5) else none) 2 77
     (freshRecord 2 5) rfl,
   C8_ensure_idempotent.2.2 (fun _ => none) 3 10 20⟩

/-- C9: the rollover loop terminates: `exp_needed_for` is strictly
positive for every level ≥ 1, and the loop stabilizes within
`(MAX_LEVEL - level).toNat` iterations — any fuel at least that bound
(such as the unbounded `while` loop, which runs until the guard fails)
computes the same result. -/
theorem C9_rollover_terminates :
    (∀ L : ℕ, 1 ≤ L → 0 < exp_needed_for L) ∧
    (∀ (n : ℕ) (l e s w : ℤ), (MAX_LEVEL - l).toNat ≤ n →
      levelLoopFuel n l e s w = level_loop l e s w) := by
  constructor
  · exact fun L h => exp_needed_for_pos L h
  · intro n l e s w hn
    exact levelLoopFuel_congr n (MAX_LEVEL - l).toNat l e s w hn le_rfl

/-- C9, witnessed: requirement positivity at level 1, and fuel 25 agrees
with the canonical bound at level 1. -/
theorem C9_rollover_terminates_witness :
    0 < exp_needed_for 1 ∧ levelLoopFuel 25 1 5 0 0 = level_loop 1 5 0 0 :=
  ⟨C9_rollover_terminates.1 1 (by decide), C9_rollover_terminates.2 25 1 5 0 0 (by decide)⟩

/-- C10: processing any action for user `uid` leaves every other user's
stored record (all of its fields) unchanged, for all five store-touching
handlers. -/
theorem C10_action_frame (g : BotState) (uid now b : ℤ) (hb : b ≠ uid) :
    (∀ res, handler_status g uid now = some res → res.state.store b = g.store b) ∧
    (∀ res, handler_water g uid now = some res → res.state.store b = g.store b) ∧
    (∀ res, handler_sun g uid now = some res → res.state.store b = g.store b) ∧
    (∀ res, handler_daily g uid now = some res → res.state.store b = g.store b) ∧
    (∀ res, handler_profile g uid now = some res → res.state.store b = g.store b) :=
  ⟨fun res h => handler_status_frame g uid now b hb res h,
   fun res h => handler_water_frame g uid now b hb res h,
   fun res h => handler_sun_frame g uid now b hb res h,
   fun res h => handler_daily_frame g uid now b hb res h,
   fun res h => handler_profile_frame g uid now b hb res h⟩

/-- C10, witnessed: user 1's successful water action leaves user 2's
record untouched. -/
theorem C10_action_frame_witness :
    (handler_water ⟨c10S, 0⟩ 1 1000).map (fun res => res.state.store 2) =
      some (c10S 2) := by
  have hfr := (C10_action_frame ⟨c10S, 0⟩ 1 1000 2 (by decide)).2.1
  cases hcase : handler_water ⟨c10S, 0⟩ 1 1000 with
  | none =>
    have hsome : (handler_water ⟨c10S, 0⟩ 1 1000).isSome = true := by decide
    rw [hcase] at hsome
    simp at hsome
  | some res =>
    exact congrArg some (hfr res hcase)

end WildTree
